import Mathlib

/-!
Verification of the `speak-desi` Sarvam speech-to-text service
(`src/sarvam-service/main.py`) against its natural-language specification.

The Python values that flow through the response normalizer are modelled by
the inductive type `PyVal`: a Python `str`, an attribute-bearing object
(assoc list of attributes), a `dict` (assoc list of entries), or some other
opaque value carrying only its `str()` rendering.  Attribute access
(`hasattr`/`getattr`), `isinstance(·, dict)` and `dict.get` are modelled by
total functions on `PyVal`, so the "never raises" behaviour of the source is
reflected by totality of the Lean definitions.

The `/transcribe` endpoint is modelled as a function of the credential
(the module-level `SARVAM_API_KEY` read from the environment at import
time), the uploaded payload bytes, and the behaviour of the upstream
streaming client; it returns the HTTP outcome together with the trace of
upstream-resource events (client construction, connection acquire/release,
websocket send/recv) the call performed, so that resource-lifetime and
"never invoked" claims can be stated.
-/

/-- Model of a Python value as seen by the response normalizer:
a `str`, an attribute-bearing object, a `dict`, or an opaque value
carrying its string rendering. -/
inductive PyVal where
  | str (s : String)
  | obj (attrs : List (String × PyVal))
  | dict (entries : List (String × PyVal))
  | atom (rendering : String)

/-- Python attribute access: `getattr(v, k)` guarded by `hasattr(v, k)`.
Only attribute-bearing objects expose the data attributes the normalizer
probes for (`data`, `transcript`, `language_code`); plain dicts, strings and
opaque values do not. -/
def attrGet : PyVal → String → Option PyVal
  | .obj attrs, k => attrs.lookup k
  | _, _ => none

/-- Python `d.get(k)` for mappings: `some` entry when `v` is a dict that has
the key, `none` otherwise. -/
def dictGet : PyVal → String → Option PyVal
  | .dict es, k => es.lookup k
  | _, _ => none

/-- Python `str(v)`: a string renders as itself, an opaque value carries its
rendering, objects and dicts render structurally. -/
def pyStr : PyVal → String
  | .str s => s
  | .atom a => a
  | .obj attrs => "<object with " ++ toString attrs.length ++ " attributes>"
  | .dict es => "\x7bdict with " ++ toString es.length ++ " entries\x7d"

/-- The nested probe of `main.py` lines 62-65 / line 80:
`hasattr(response, "data")` followed by an attribute probe on
`response.data`. -/
def nestedAttr (response : PyVal) (k : String) : Option PyVal :=
  match attrGet response "data" with
  | some inner => attrGet inner k
  | none => none

/-- `extract_transcript` of `main.py` lines 53-75, branch for branch:
nested `response.data.transcript` attribute first, then a flat `transcript`
attribute, then the dict shapes via `response.get("data", response)`, and
finally the `str(response)` rendering. -/
def extract_transcript (response : PyVal) : PyVal :=
  match nestedAttr response "transcript" with
  | some t => t
  | none =>
  match attrGet response "transcript" with
  | some t => t
  | none =>
  match response with
  | .dict es =>
    match (es.lookup "data").getD response with
    | .dict des => (des.lookup "transcript").getD (.str (pyStr response))
    | _ => (es.lookup "transcript").getD (.str (pyStr response))
  | _ => .str (pyStr response)

/-- `extract_language` of `main.py` lines 78-89: the same cascade over the
`language_code` field, with final fallback `"unknown"`. -/
def extract_language (response : PyVal) : PyVal :=
  match nestedAttr response "language_code" with
  | some v => v
  | none =>
  match attrGet response "language_code" with
  | some v => v
  | none =>
  match response with
  | .dict es =>
    match (es.lookup "data").getD response with
    | .dict des => (des.lookup "language_code").getD (.str "unknown")
    | _ => (es.lookup "language_code").getD (.str "unknown")
  | _ => .str "unknown"

/-- Is the value a Python `str`? -/
def isStrVal : PyVal → Bool
  | .str _ => true
  | _ => false

/-- Field `k` of `r`, wherever it is directly exposed (as an attribute or as
a dict entry), holds a Python string. -/
def fieldStrAt (r : PyVal) (k : String) : Bool :=
  (match attrGet r k with | some v => isStrVal v | none => true) &&
  (match dictGet r k with | some v => isStrVal v | none => true)

/-- All occurrences of field `k` that the normalizer can reach — at top
level or on the nested `data` value — hold Python strings.  This captures
that the value is one of the `RawProviderResponse` shape variants, whose
`transcript`/`language_code` fields are strings. -/
def strFields (r : PyVal) (k : String) : Bool :=
  fieldStrAt r k &&
  (match attrGet r "data" with | some d => fieldStrAt d k | none => true) &&
  (match dictGet r "data" with | some d => fieldStrAt d k | none => true)

/-- Field `k` is found at no level: not on the nested `data` value, not at
top level, neither as an attribute nor as a dict entry. -/
def noField (r : PyVal) (k : String) : Bool :=
  (attrGet r k).isNone && (dictGet r k).isNone &&
  (match attrGet r "data" with | some d => (attrGet d k).isNone | none => true) &&
  (match dictGet r "data" with | some d => (dictGet d k).isNone | none => true)

/-- Truthiness of the `SARVAM_API_KEY` environment value (`main.py` lines
37-38 and 112): `os.getenv` yields `none` when unset, and Python treats both
`None` and the empty string as "not configured". -/
def keyConfigured : Option String → Bool
  | some s => !s.isEmpty
  | none => false

/-- `TranscriptionResponse` of `main.py` lines 42-44.  The fields are the
values produced by the normalizer (strings in every specified shape). -/
structure TranscriptionResponse where
  transcript : PyVal
  language_code : PyVal

/-- `HealthResponse` of `main.py` lines 47-50. -/
structure HealthResponse where
  status : String
  model : String
  api_key_configured : Bool

/-- `health_check` of `main.py` lines 92-98.  Its argument is the
module-level `SARVAM_API_KEY`, read from the process environment once at
module load time (line 37); the endpoint consults only this value. -/
def health_check (startupKey : Option String) : HealthResponse :=
  { status := "healthy", model := "saaras:v3", api_key_configured := keyConfigured startupKey }

/-- Upstream-resource events a `/transcribe` call can perform, in the order
they appear in `main.py` lines 130-139: constructing `AsyncSarvamAI`,
entering the `async with ... connect(...)` scope, `ws.transcribe`,
`ws.recv`, and leaving the scope (release). -/
inductive Event where
  | clientConstruct
  | connAcquire
  | wsSend
  | wsRecv
  | connRelease
deriving DecidableEq

/-- Behaviour of the upstream streaming client during one call: the
connection attempt may raise, the send (`ws.transcribe`) may raise, the
receive (`ws.recv`) may raise, or the single awaited message arrives. -/
inductive UpstreamBehavior where
  | connectFail (msg : String)
  | sendFail (msg : String)
  | recvFail (msg : String)
  | respond (response : PyVal)

/-- Outcome of a `/transcribe` call: a 200 body, or an `HTTPException`
with its status code and detail string. -/
inductive TranscribeResult where
  | ok (body : TranscriptionResponse)
  | httpError (status : Nat) (detail : String)

/-- HTTP status of a `/transcribe` outcome (a successful body is a 200). -/
def statusOf : TranscribeResult → Nat
  | .ok _ => 200
  | .httpError s _ => s

/-- `transcribe` of `main.py` lines 101-149, with the upstream client
abstracted by its behaviour for this call.  Mirrors the source order:
the credential check (112-113) raises 500 before anything else; the empty
payload check (123-125) raises 400 before the client is constructed; then
the `try` block constructs the client, opens the scoped connection, sends,
receives once, normalizes, and any exception inside the block becomes a 500
whose detail wraps the message (147-149).  The `async with` scope releases
the connection on every exit from its body, including exits by exception.
The second component is the trace of upstream-resource events performed. -/
def transcribe (apiKey : Option String) (content : List Nat)
    (upstream : UpstreamBehavior) : TranscribeResult × List Event :=
  if !keyConfigured apiKey then
    (.httpError 500 "SARVAM_API_KEY is not configured", [])
  else if content.isEmpty then
    (.httpError 400 "Uploaded file is empty", [])
  else
    match upstream with
    | .connectFail m =>
      (.httpError 500 ("Transcription failed: " ++ m), [.clientConstruct])
    | .sendFail m =>
      (.httpError 500 ("Transcription failed: " ++ m),
        [.clientConstruct, .connAcquire, .wsSend, .connRelease])
    | .recvFail m =>
      (.httpError 500 ("Transcription failed: " ++ m),
        [.clientConstruct, .connAcquire, .wsSend, .wsRecv, .connRelease])
    | .respond r =>
      (.ok ⟨extract_transcript r, extract_language r⟩,
        [.clientConstruct, .connAcquire, .wsSend, .wsRecv, .connRelease])

lemma isStrVal_iff (v : PyVal) : isStrVal v = true ↔ ∃ s, v = .str s := by
  cases v <;> simp [isStrVal]

lemma fieldStrAt_attr {r : PyVal} {k : String} {v : PyVal}
    (h : fieldStrAt r k = true) (ha : attrGet r k = some v) : ∃ s, v = .str s := by
  unfold fieldStrAt at h
  rw [ha, Bool.and_eq_true] at h
  exact (isStrVal_iff v).mp h.1

lemma fieldStrAt_dict {r : PyVal} {k : String} {v : PyVal}
    (h : fieldStrAt r k = true) (hd : dictGet r k = some v) : ∃ s, v = .str s := by
  unfold fieldStrAt at h
  rw [hd, Bool.and_eq_true] at h
  exact (isStrVal_iff v).mp h.2

lemma strFields_parts {r : PyVal} {k : String} (h : strFields r k = true) :
    fieldStrAt r k = true ∧
    (∀ d, attrGet r "data" = some d → fieldStrAt d k = true) ∧
    (∀ d, dictGet r "data" = some d → fieldStrAt d k = true) := by
  unfold strFields at h
  rw [Bool.and_eq_true, Bool.and_eq_true] at h
  refine ⟨h.1.1, fun d hd => ?_, fun d hd => ?_⟩
  · have h2 := h.1.2; rw [hd] at h2; exact h2
  · have h3 := h.2; rw [hd] at h3; exact h3

lemma noField_parts {r : PyVal} {k : String} (h : noField r k = true) :
    attrGet r k = none ∧ dictGet r k = none ∧
    (∀ d, attrGet r "data" = some d → attrGet d k = none) ∧
    (∀ d, dictGet r "data" = some d → dictGet d k = none) := by
  unfold noField at h
  rw [Bool.and_eq_true, Bool.and_eq_true, Bool.and_eq_true] at h
  refine ⟨Option.isNone_iff_eq_none.mp h.1.1.1, Option.isNone_iff_eq_none.mp h.1.1.2,
    fun d hd => ?_, fun d hd => ?_⟩
  · have h3 := h.1.2; rw [hd] at h3; exact Option.isNone_iff_eq_none.mp h3
  · have h4 := h.2; rw [hd] at h4; exact Option.isNone_iff_eq_none.mp h4

lemma nestedAttr_eq_some {r : PyVal} {k : String} {v : PyVal} (h : nestedAttr r k = some v) :
    ∃ d, attrGet r "data" = some d ∧ attrGet d k = some v := by
  unfold nestedAttr at h
  cases hd : attrGet r "data" with
  | none => rw [hd] at h; exact absurd h (by simp)
  | some d => rw [hd] at h; exact ⟨d, rfl, h⟩

lemma noField_nested {r : PyVal} {k : String} (h : noField r k = true) :
    nestedAttr r k = none := by
  unfold nestedAttr
  cases hd : attrGet r "data" with
  | none => rfl
  | some d => exact (noField_parts h).2.2.1 d hd

/-- On every input whose reachable `transcript` fields are not present,
`extract_transcript` returns the `str(response)` rendering. -/
lemma extract_transcript_fallback (r : PyVal) (h : noField r "transcript" = true) :
    extract_transcript r = .str (pyStr r) := by
  obtain ⟨h1, h2, h3, h4⟩ := noField_parts h
  unfold extract_transcript
  rw [noField_nested h, h1]
  cases r with
  | str s => rfl
  | atom a => rfl
  | obj attrs => rfl
  | dict es =>
    simp only [dictGet] at h2 h4
    cases hd : es.lookup "data" with
    | none => simp [hd, h2]
    | some d =>
      cases d with
      | dict ds =>
        have := h4 (.dict ds) hd
        simp only [dictGet] at this
        simp [hd, this]
      | str s => simp [hd, h2]
      | obj as => simp [hd, h2]
      | atom a => simp [hd, h2]

/-- On every input whose reachable `language_code` fields are not present,
`extract_language` returns the literal `"unknown"`. -/
lemma extract_language_fallback (r : PyVal) (h : noField r "language_code" = true) :
    extract_language r = .str "unknown" := by
  obtain ⟨h1, h2, h3, h4⟩ := noField_parts h
  unfold extract_language
  rw [noField_nested h, h1]
  cases r with
  | str s => rfl
  | atom a => rfl
  | obj attrs => rfl
  | dict es =>
    simp only [dictGet] at h2 h4
    cases hd : es.lookup "data" with
    | none => simp [hd, h2]
    | some d =>
      cases d with
      | dict ds =>
        have := h4 (.dict ds) hd
        simp only [dictGet] at this
        simp [hd, this]
      | str s => simp [hd, h2]
      | obj as => simp [hd, h2]
      | atom a => simp [hd, h2]

/-- On every input whose reachable `transcript` fields hold strings,
`extract_transcript` returns a string. -/
lemma extract_transcript_isStr (r : PyVal) (h : strFields r "transcript" = true) :
    ∃ s, extract_transcript r = .str s := by
  obtain ⟨h1, h2, h3⟩ := strFields_parts h
  unfold extract_transcript
  cases hn : nestedAttr r "transcript" with
  | some t =>
    obtain ⟨d, hd, ht⟩ := nestedAttr_eq_some hn
    obtain ⟨s, hs⟩ := fieldStrAt_attr (h2 d hd) ht
    exact ⟨s, by rw [hs]⟩
  | none =>
    cases ha : attrGet r "transcript" with
    | some t =>
      obtain ⟨s, hs⟩ := fieldStrAt_attr h1 ha
      exact ⟨s, by rw [hs]⟩
    | none =>
      cases r with
      | str s => exact ⟨s, rfl⟩
      | atom a => exact ⟨a, rfl⟩
      | obj attrs => exact ⟨pyStr (.obj attrs), rfl⟩
      | dict es =>
        cases hd : es.lookup "data" with
        | none =>
          cases ht : es.lookup "transcript" with
          | some t =>
            obtain ⟨s, hs⟩ := fieldStrAt_dict h1 (show dictGet (.dict es) "transcript" = some t from ht)
            exact ⟨s, by simp [hd, ht, hs]⟩
          | none => exact ⟨pyStr (.dict es), by simp [hd, ht]⟩
        | some d =>
          cases d with
          | dict ds =>
            cases ht : ds.lookup "transcript" with
            | some t =>
              have hsd : dictGet (.dict es) "data" = some (.dict ds) := hd
              obtain ⟨s, hs⟩ := fieldStrAt_dict (h3 _ hsd) (show dictGet (.dict ds) "transcript" = some t from ht)
              exact ⟨s, by simp [hd, ht, hs]⟩
            | none => exact ⟨pyStr (.dict es), by simp [hd, ht]⟩
          | str s' =>
            cases ht : es.lookup "transcript" with
            | some t =>
              obtain ⟨s, hs⟩ := fieldStrAt_dict h1 (show dictGet (.dict es) "transcript" = some t from ht)
              exact ⟨s, by simp [hd, ht, hs]⟩
            | none => exact ⟨pyStr (.dict es), by simp [hd, ht]⟩
          | obj as =>
            cases ht : es.lookup "transcript" with
            | some t =>
              obtain ⟨s, hs⟩ := fieldStrAt_dict h1 (show dictGet (.dict es) "transcript" = some t from ht)
              exact ⟨s, by simp [hd, ht, hs]⟩
            | none => exact ⟨pyStr (.dict es), by simp [hd, ht]⟩
          | atom a =>
            cases ht : es.lookup "transcript" with
            | some t =>
              obtain ⟨s, hs⟩ := fieldStrAt_dict h1 (show dictGet (.dict es) "transcript" = some t from ht)
              exact ⟨s, by simp [hd, ht, hs]⟩
            | none => exact ⟨pyStr (.dict es), by simp [hd, ht]⟩

/-- On every input whose reachable `language_code` fields hold strings,
`extract_language` returns a string. -/
lemma extract_language_isStr (r : PyVal) (h : strFields r "language_code" = true) :
    ∃ s, extract_language r = .str s := by
  obtain ⟨h1, h2, h3⟩ := strFields_parts h
  unfold extract_language
  cases hn : nestedAttr r "language_code" with
  | some t =>
    obtain ⟨d, hd, ht⟩ := nestedAttr_eq_some hn
    obtain ⟨s, hs⟩ := fieldStrAt_attr (h2 d hd) ht
    exact ⟨s, by rw [hs]⟩
  | none =>
    cases ha : attrGet r "language_code" with
    | some t =>
      obtain ⟨s, hs⟩ := fieldStrAt_attr h1 ha
      exact ⟨s, by rw [hs]⟩
    | none =>
      cases r with
      | str s => exact ⟨"unknown", rfl⟩
      | atom a => exact ⟨"unknown", rfl⟩
      | obj attrs => exact ⟨"unknown", rfl⟩
      | dict es =>
        cases hd : es.lookup "data" with
        | none =>
          cases ht : es.lookup "language_code" with
          | some t =>
            obtain ⟨s, hs⟩ := fieldStrAt_dict h1 (show dictGet (.dict es) "language_code" = some t from ht)
            exact ⟨s, by simp [hd, ht, hs]⟩
          | none => exact ⟨"unknown", by simp [hd, ht]⟩
        | some d =>
          cases d with
          | dict ds =>
            cases ht : ds.lookup "language_code" with
            | some t =>
              have hsd : dictGet (.dict es) "data" = some (.dict ds) := hd
              obtain ⟨s, hs⟩ := fieldStrAt_dict (h3 _ hsd) (show dictGet (.dict ds) "language_code" = some t from ht)
              exact ⟨s, by simp [hd, ht, hs]⟩
            | none => exact ⟨"unknown", by simp [hd, ht]⟩
          | str s' =>
            cases ht : es.lookup "language_code" with
            | some t =>
              obtain ⟨s, hs⟩ := fieldStrAt_dict h1 (show dictGet (.dict es) "language_code" = some t from ht)
              exact ⟨s, by simp [hd, ht, hs]⟩
            | none => exact ⟨"unknown", by simp [hd, ht]⟩
          | obj as =>
            cases ht : es.lookup "language_code" with
            | some t =>
              obtain ⟨s, hs⟩ := fieldStrAt_dict h1 (show dictGet (.dict es) "language_code" = some t from ht)
              exact ⟨s, by simp [hd, ht, hs]⟩
            | none => exact ⟨"unknown", by simp [hd, ht]⟩
          | atom a =>
            cases ht : es.lookup "language_code" with
            | some t =>
              obtain ⟨s, hs⟩ := fieldStrAt_dict h1 (show dictGet (.dict es) "language_code" = some t from ht)
              exact ⟨s, by simp [hd, ht, hs]⟩
            | none => exact ⟨"unknown", by simp [hd, ht]⟩

/-- Behaviour of a `/transcribe` call that passes the credential and
non-empty-payload checks: the outcome and event trace are determined by the
upstream behaviour. -/
lemma transcribe_active (key : Option String) (content : List Nat) (up : UpstreamBehavior)
    (hk : keyConfigured key = true) (hc : content ≠ []) :
    transcribe key content up =
      match up with
      | .connectFail m =>
        (.httpError 500 ("Transcription failed: " ++ m), [.clientConstruct])
      | .sendFail m =>
        (.httpError 500 ("Transcription failed: " ++ m),
          [.clientConstruct, .connAcquire, .wsSend, .connRelease])
      | .recvFail m =>
        (.httpError 500 ("Transcription failed: " ++ m),
          [.clientConstruct, .connAcquire, .wsSend, .wsRecv, .connRelease])
      | .respond r =>
        (.ok ⟨extract_transcript r, extract_language r⟩,
          [.clientConstruct, .connAcquire, .wsSend, .wsRecv, .connRelease]) := by
  have hne : content.isEmpty = false := by
    cases content with
    | nil => exact absurd rfl hc
    | cons a l => rfl
  cases up <;> simp [transcribe, hk, hne]

/-- C1: For every input value of any of the shapes nested-object,
flat-object, nested-mapping, flat-mapping, or unrecognized-opaque-value
(i.e. every `PyVal` whose reachable `transcript`/`language_code` fields are
strings, as in every `RawProviderResponse` variant), `extract_transcript`
and `extract_language` are total and return a string: `extract_transcript`
falls back to the `str(response)` rendering and `extract_language` to the
literal `"unknown"` when no matching field is found. -/
theorem c1_normalization_never_fails (r : PyVal)
    (ht : strFields r "transcript" = true) (hl : strFields r "language_code" = true) :
    (∃ s, extract_transcript r = .str s) ∧ (∃ s, extract_language r = .str s) ∧
    (noField r "transcript" = true → extract_transcript r = .str (pyStr r)) ∧
    (noField r "language_code" = true → extract_language r = .str "unknown") :=
  ⟨extract_transcript_isStr r ht, extract_language_isStr r hl,
    fun h => extract_transcript_fallback r h, fun h => extract_language_fallback r h⟩

/-- Witness for C1 at the unrecognized-opaque-value shape. -/
theorem c1_witness :
    (∃ s, extract_transcript (.atom "weird") = .str s) ∧
    (∃ s, extract_language (.atom "weird") = .str s) ∧
    (noField (.atom "weird") "transcript" = true →
      extract_transcript (.atom "weird") = .str (pyStr (.atom "weird"))) ∧
    (noField (.atom "weird") "language_code" = true →
      extract_language (.atom "weird") = .str "unknown") :=
  c1_normalization_never_fails (.atom "weird") rfl rfl

/-- C2: When both a nested `data.transcript` and a top-level `transcript`
are present — whether as attributes on objects or as entries of mappings —
the nested one wins; likewise for `language_code`. -/
theorem c2_nested_wins (dFields rFields : List (String × PyVal)) (v w : PyVal) :
    (rFields.lookup "data" = some (.obj dFields) →
      dFields.lookup "transcript" = some v → rFields.lookup "transcript" = some w →
      extract_transcript (.obj rFields) = v) ∧
    (rFields.lookup "data" = some (.dict dFields) →
      dFields.lookup "transcript" = some v → rFields.lookup "transcript" = some w →
      extract_transcript (.dict rFields) = v) ∧
    (rFields.lookup "data" = some (.obj dFields) →
      dFields.lookup "language_code" = some v → rFields.lookup "language_code" = some w →
      extract_language (.obj rFields) = v) ∧
    (rFields.lookup "data" = some (.dict dFields) →
      dFields.lookup "language_code" = some v → rFields.lookup "language_code" = some w →
      extract_language (.dict rFields) = v) := by
  refine ⟨fun h1 h2 _ => ?_, fun h1 h2 _ => ?_, fun h1 h2 _ => ?_, fun h1 h2 _ => ?_⟩
  · simp [extract_transcript, nestedAttr, attrGet, h1, h2]
  · simp [extract_transcript, nestedAttr, attrGet, h1, h2]
  · simp [extract_language, nestedAttr, attrGet, h1, h2]
  · simp [extract_language, nestedAttr, attrGet, h1, h2]

/-- Witness for C2: nested value beats the top-level one in all four
access-mode combinations. -/
theorem c2_witness :
    extract_transcript
      (.obj [("data", .obj [("transcript", .str "nested")]), ("transcript", .str "top")])
      = .str "nested" ∧
    extract_transcript
      (.dict [("data", .dict [("transcript", .str "nested")]), ("transcript", .str "top")])
      = .str "nested" ∧
    extract_language
      (.obj [("data", .obj [("language_code", .str "hi-IN")]), ("language_code", .str "en-IN")])
      = .str "hi-IN" ∧
    extract_language
      (.dict [("data", .dict [("language_code", .str "hi-IN")]), ("language_code", .str "en-IN")])
      = .str "hi-IN" :=
  ⟨(c2_nested_wins [("transcript", .str "nested")]
      [("data", .obj [("transcript", .str "nested")]), ("transcript", .str "top")]
      (.str "nested") (.str "top")).1 rfl rfl rfl,
   (c2_nested_wins [("transcript", .str "nested")]
      [("data", .dict [("transcript", .str "nested")]), ("transcript", .str "top")]
      (.str "nested") (.str "top")).2.1 rfl rfl rfl,
   (c2_nested_wins [("language_code", .str "hi-IN")]
      [("data", .obj [("language_code", .str "hi-IN")]), ("language_code", .str "en-IN")]
      (.str "hi-IN") (.str "en-IN")).2.2.1 rfl rfl rfl,
   (c2_nested_wins [("language_code", .str "hi-IN")]
      [("data", .dict [("language_code", .str "hi-IN")]), ("language_code", .str "en-IN")]
      (.str "hi-IN") (.str "en-IN")).2.2.2 rfl rfl rfl⟩

/-- C3 counterexample: on `\x7b"data": \x7b\x7d, "language_code": "en-IN"\x7d`
the claim expects the top-level entry `"en-IN"`, but the code returns the
fallback `"unknown"`: `response.get("data", response)` is a dict lacking the
key, so `data.get("language_code", "unknown")` never consults the top-level
mapping again. -/
theorem c3_counterexample :
    extract_language (.dict [("data", .dict []), ("language_code", .str "en-IN")])
      = .str "unknown" ∧ "unknown" ≠ "en-IN" :=
  ⟨rfl, by decide⟩

/-- C3 amended: for every mapping whose `"data"` entry is itself a mapping
lacking the field, the extractor returns the final fallback directly —
`str(response)` for the transcript, `"unknown"` for the language — never
the top-level entry, whatever the rest of the top-level mapping holds. -/
theorem c3_amended_no_fallthrough (es ds : List (String × PyVal))
    (h : es.lookup "data" = some (.dict ds)) :
    (ds.lookup "transcript" = none →
      extract_transcript (.dict es) = .str (pyStr (.dict es))) ∧
    (ds.lookup "language_code" = none →
      extract_language (.dict es) = .str "unknown") := by
  refine ⟨fun ht => ?_, fun hl => ?_⟩
  · simp [extract_transcript, nestedAttr, attrGet, h, ht]
  · simp [extract_language, nestedAttr, attrGet, h, hl]

/-- Witness for the amended C3, on mappings that do carry top-level
`transcript` / `language_code` entries. -/
theorem c3_amended_witness :
    extract_transcript (.dict [("data", .dict []), ("transcript", .str "top")])
      = .str (pyStr (.dict [("data", .dict []), ("transcript", .str "top")])) ∧
    extract_language (.dict [("data", .dict []), ("language_code", .str "en-IN")])
      = .str "unknown" :=
  ⟨(c3_amended_no_fallthrough [("data", .dict []), ("transcript", .str "top")] [] rfl).1 rfl,
   (c3_amended_no_fallthrough [("data", .dict []), ("language_code", .str "en-IN")] [] rfl).2 rfl⟩

/-- C4: whenever no `language_code` field is found at any level — not on a
nested `data` value, not at top level, neither as attribute nor as mapping
entry — `extract_language` returns exactly the literal `"unknown"`. -/
theorem c4_missing_language_yields_unknown (r : PyVal)
    (h : noField r "language_code" = true) :
    extract_language r = .str "unknown" :=
  extract_language_fallback r h

/-- Witness for C4: a mapping whose `"data"` entry is not a mapping and
which has no `language_code` anywhere. -/
theorem c4_witness :
    extract_language (.dict [("data", .str "x")]) = .str "unknown" :=
  c4_missing_language_yields_unknown (.dict [("data", .str "x")]) rfl

/-- C5: an empty uploaded payload (with the credential configured) yields
the 400 "Uploaded file is empty" error, and the upstream client is never
constructed nor invoked (the event trace is empty). -/
theorem c5_empty_payload_rejected (key : Option String) (up : UpstreamBehavior)
    (hk : keyConfigured key = true) :
    transcribe key [] up = (.httpError 400 "Uploaded file is empty", []) := by
  simp [transcribe, hk]

/-- Witness for C5. -/
theorem c5_witness :
    transcribe (some "k") [] (.respond (.atom "x"))
      = (.httpError 400 "Uploaded file is empty", []) :=
  c5_empty_payload_rejected (some "k") (.respond (.atom "x")) rfl

/-- C6: with the credential unconfigured (unset or empty), every
`/transcribe` call yields the fixed 500 configuration error and performs no
upstream interaction at all (empty event trace), whatever the payload and
whatever the upstream would have done. -/
theorem c6_missing_credential (key : Option String) (content : List Nat)
    (up : UpstreamBehavior) (hk : keyConfigured key = false) :
    transcribe key content up
      = (.httpError 500 "SARVAM_API_KEY is not configured", []) := by
  simp [transcribe, hk]

/-- Witness for C6. -/
theorem c6_witness :
    transcribe none [1, 2] (.respond (.atom "x"))
      = (.httpError 500 "SARVAM_API_KEY is not configured", []) :=
  c6_missing_credential none [1, 2] (.respond (.atom "x")) rfl

/-- C7: with a non-empty payload and a configured credential, when the
upstream returns the single message
`\x7b"data": \x7b"transcript": "hello world", "language_code": "en-IN"\x7d\x7d`,
the endpoint returns status 200 with body exactly
`\x7btranscript = "hello world", language_code = "en-IN"\x7d`. -/
theorem c7_success_roundtrip (key : Option String) (content : List Nat)
    (hk : keyConfigured key = true) (hc : content ≠ []) :
    (transcribe key content (.respond (.dict [("data",
        .dict [("transcript", .str "hello world"), ("language_code", .str "en-IN")])]))).1
      = .ok ⟨.str "hello world", .str "en-IN"⟩ ∧
    statusOf (transcribe key content (.respond (.dict [("data",
        .dict [("transcript", .str "hello world"), ("language_code", .str "en-IN")])]))).1
      = 200 := by
  rw [transcribe_active key content _ hk hc]
  exact ⟨rfl, rfl⟩

/-- Witness for C7. -/
theorem c7_witness :
    (transcribe (some "k") [0] (.respond (.dict [("data",
        .dict [("transcript", .str "hello world"), ("language_code", .str "en-IN")])]))).1
      = .ok ⟨.str "hello world", .str "en-IN"⟩ ∧
    statusOf (transcribe (some "k") [0] (.respond (.dict [("data",
        .dict [("transcript", .str "hello world"), ("language_code", .str "en-IN")])]))).1
      = 200 :=
  c7_success_roundtrip (some "k") [0] rfl (by decide)

/-- C8: whenever the upstream interaction raises a failure with message `m`
(at connect, send or receive), the endpoint returns a 500 whose detail is
`"Transcription failed: " ++ m` (hence contains `m`), and the upstream call
is attempted exactly once — one client construction, at most one send and
one receive, no retry. -/
theorem c8_upstream_failure_wrapped (key : Option String) (content : List Nat)
    (m : String) (up : UpstreamBehavior) (hk : keyConfigured key = true)
    (hc : content ≠ [])
    (hup : up = .connectFail m ∨ up = .sendFail m ∨ up = .recvFail m) :
    (transcribe key content up).1 = .httpError 500 ("Transcription failed: " ++ m) ∧
    (transcribe key content up).2.count .clientConstruct = 1 ∧
    (transcribe key content up).2.count .wsSend ≤ 1 ∧
    (transcribe key content up).2.count .wsRecv ≤ 1 := by
  rcases hup with h | h | h <;> subst h <;>
    rw [transcribe_active key content _ hk hc]
  · exact ⟨rfl, rfl, Nat.zero_le 1, Nat.zero_le 1⟩
  · exact ⟨rfl, rfl, Nat.le_refl 1, Nat.zero_le 1⟩
  · exact ⟨rfl, rfl, Nat.le_refl 1, Nat.le_refl 1⟩

/-- Witness for C8 at a receive-time transport failure. -/
theorem c8_witness :
    (transcribe (some "k") [0] (.recvFail "connection reset")).1
      = .httpError 500 ("Transcription failed: " ++ "connection reset") ∧
    (transcribe (some "k") [0] (.recvFail "connection reset")).2.count .clientConstruct = 1 ∧
    (transcribe (some "k") [0] (.recvFail "connection reset")).2.count .wsSend ≤ 1 ∧
    (transcribe (some "k") [0] (.recvFail "connection reset")).2.count .wsRecv ≤ 1 :=
  c8_upstream_failure_wrapped (some "k") [0] "connection reset" _ rfl (by decide)
    (Or.inr (Or.inr rfl))

/-- C9 counterexample: `api_key_configured` is computed from the
module-level `SARVAM_API_KEY`, read from the environment once at import
time.  At a call made after the credential (present at startup as
`some "k"`) has been removed from the process environment, the endpoint
still reports `true`, while call-time presence is `false`. -/
theorem c9_counterexample :
    (health_check (some "k")).api_key_configured = true ∧ keyConfigured none = false :=
  ⟨rfl, rfl⟩

/-- C9 amended: `api_key_configured` equals the presence (truthiness) of
the credential in the process environment at process startup — module load
time — not at call time, alongside the fixed fields
`status = "healthy"` and `model = "saaras:v3"`. -/
theorem c9_amended_health_reflects_startup (startupKey : Option String) :
    health_check startupKey =
      { status := "healthy", model := "saaras:v3",
        api_key_configured := keyConfigured startupKey } :=
  rfl

/-- C10: every `/transcribe` call that reaches the upstream interaction
releases exactly what it acquires: acquire/release events balance, and if
the connection was acquired the last event of the call is its release — on
every exit path, including those where the send or the receive raises. -/
theorem c10_connection_scoped (key : Option String) (content : List Nat)
    (up : UpstreamBehavior) (hk : keyConfigured key = true) (hc : content ≠ []) :
    (transcribe key content up).2.count Event.connAcquire
      = (transcribe key content up).2.count Event.connRelease ∧
    (Event.connAcquire ∈ (transcribe key content up).2 →
      (transcribe key content up).2.getLast? = some Event.connRelease) := by
  rw [transcribe_active key content up hk hc]
  cases up with
  | connectFail m => exact ⟨rfl, fun h => by simp at h⟩
  | sendFail m => exact ⟨rfl, fun _ => rfl⟩
  | recvFail m => exact ⟨rfl, fun _ => rfl⟩
  | respond r => exact ⟨rfl, fun _ => rfl⟩

/-- Witness for C10 on the path where the send raises. -/
theorem c10_witness :
    (transcribe (some "k") [0] (.sendFail "boom")).2.count Event.connAcquire
      = (transcribe (some "k") [0] (.sendFail "boom")).2.count Event.connRelease ∧
    (transcribe (some "k") [0] (.sendFail "boom")).2.getLast? = some Event.connRelease :=
  ⟨(c10_connection_scoped (some "k") [0] (.sendFail "boom") rfl (by decide)).1,
   (c10_connection_scoped (some "k") [0] (.sendFail "boom") rfl (by decide)).2 (by decide)⟩
